import Mathlib

/-!
Verification of the Geospatial Resolution Subsystem of the Windborne-agent
repository (backend/geospatial_pure.py, backend/geospatial_simple.py,
backend/geospatial_fallback.py, backend/country_detector.py).

Coordinates are modelled as exact rationals (ℚ).  A Python computation that
may raise an exception is modelled as an `Option`-valued function, `none`
standing for a raised exception (NameError / IndexError / FileNotFoundError).
-/

namespace Windborne

/-! ## Membership engine: `point_in_polygon` (geospatial_pure.py, lines 9-30)

The loop body carries the Python local `xinters`, which starts unassigned:
we carry it as `Option ℚ`, `none` meaning "not yet assigned"; consulting it
while `none` is Python's NameError, modelled by the whole call returning
`none`. -/

/-- Loop-carried state of the ray-casting loop: the `inside` flag and the
Python local `xinters` (unassigned at loop entry). -/
structure PipState where
  inside : Bool
  xinters : Option ℚ
  deriving Repr, DecidableEq

/-- One iteration of the `for i in range(1, n + 1)` loop body of
`point_in_polygon`, for the edge from `(p1x, p1y)` to `(p2x, p2y)`.
Returns `none` when Python would raise NameError (`xinters` referenced
before assignment); the `p1x = p2x` disjunct is evaluated first, matching
Python's short-circuit `or`. -/
def pipEdge (x y : ℚ) (p1 p2 : ℚ × ℚ) (st : PipState) : Option PipState :=
  let p1x := p1.1; let p1y := p1.2
  let p2x := p2.1; let p2y := p2.2
  if y > min p1y p2y then
    if y ≤ max p1y p2y then
      if x ≤ max p1x p2x then
        let xi : Option ℚ :=
          if p1y ≠ p2y then some ((y - p1y) * (p2x - p1x) / (p2y - p1y) + p1x)
          else st.xinters
        if p1x = p2x then some ⟨!st.inside, xi⟩
        else
          match xi with
          | none => none
          | some v =>
            if x ≤ v then some ⟨!st.inside, xi⟩ else some ⟨st.inside, xi⟩
      else some st
    else some st
  else some st

/-- The ray-casting loop over the remaining `p2` vertices, threading the
previous vertex `p1` and the loop state. -/
def pipGo (x y : ℚ) : (ℚ × ℚ) → PipState → List (ℚ × ℚ) → Option PipState
  | _, st, [] => some st
  | p1, st, p2 :: ps =>
    match pipEdge x y p1 p2 st with
    | none => none
    | some st2 => pipGo x y p2 st2 ps

/-- `point_in_polygon` from geospatial_pure.py.  For `i` in `1..n` the code
reads vertex `polygon_coords[i % n]`, i.e. the successive `p2` vertices are
`coords[1:] ++ [coords[0]]`.  An empty ring raises IndexError at
`polygon_coords[0]` (modelled as `none`). -/
def point_in_polygon (x y : ℚ) (polygon_coords : List (ℚ × ℚ)) : Option Bool :=
  match polygon_coords with
  | [] => none
  | v0 :: rest =>
    (pipGo x y v0 ⟨false, none⟩ (rest ++ [v0])).map PipState.inside

/-! ## Spec reference procedure (spec.md §4.2)

A second definition written from the specification's words, to be compared
with `point_in_polygon`: "for `i` in `1..n` inclusive let `(p2x,p2y) =
v[i % n]`; if `y` is strictly greater than `min(p1y,p2y)` AND `y` is
less-than-or-equal to `max(p1y,p2y)` AND `x` is less-than-or-equal to
`max(p1x,p2x)`, then: if `p1y != p2y` compute `xinters`; if `p1x == p2x`
OR `x <= xinters`, toggle `inside`; advance `(p1x,p1y) = (p2x,p2y)`." -/

/-- One step of the spec's reference crossing-number procedure, with the
guard written as the spec's single conjunction; `xinters` keeps the value
carried over from the previous recomputation when `p1y = p2y`. -/
def specEdge (x y : ℚ) (p1 p2 : ℚ × ℚ) (st : PipState) : Option PipState :=
  let p1x := p1.1; let p1y := p1.2
  let p2x := p2.1; let p2y := p2.2
  if y > min p1y p2y ∧ y ≤ max p1y p2y ∧ x ≤ max p1x p2x then
    let xi : Option ℚ :=
      if p1y ≠ p2y then some ((y - p1y) * (p2x - p1x) / (p2y - p1y) + p1x)
      else st.xinters
    if p1x = p2x then some ⟨!st.inside, xi⟩
    else
      match xi with
      | none => none
      | some v => if x ≤ v then some ⟨!st.inside, xi⟩ else some ⟨st.inside, xi⟩
  else some st

/-- The spec's indexed loop: `rem` iterations remain, the current index is
`i`, and the current `(p1x,p1y)` and state are carried; each iteration reads
`v[i % n]`. -/
def specLoop (x y : ℚ) (v : List (ℚ × ℚ)) (n : Nat) :
    Nat → Nat → (ℚ × ℚ) → PipState → Option PipState
  | 0, _, _, st => some st
  | rem + 1, i, p1, st =>
    let p2 := v.getD (i % n) (0, 0)
    match specEdge x y p1 p2 st with
    | none => none
    | some st2 => specLoop x y v n rem (i + 1) p2 st2

/-- The spec's reference crossing-number procedure for one ring: start from
`inside = false`, `(p1x,p1y) = v[0]`, and run indices `1..n` inclusive. -/
def specCrossing (x y : ℚ) (v : List (ℚ × ℚ)) : Option Bool :=
  match v with
  | [] => none
  | v0 :: _ => (specLoop x y v v.length v.length 1 v0 ⟨false, none⟩).map PipState.inside

theorem specEdge_eq_pipEdge (x y : ℚ) (p1 p2 : ℚ × ℚ) (st : PipState) :
    specEdge x y p1 p2 st = pipEdge x y p1 p2 st := by
  unfold specEdge pipEdge
  by_cases h1 : y > min p1.2 p2.2 <;> by_cases h2 : y ≤ max p1.2 p2.2 <;>
    by_cases h3 : x ≤ max p1.1 p2.1 <;> simp [h1, h2, h3]

theorem specLoop_succ (x y : ℚ) (v : List (ℚ × ℚ)) (n rem i : Nat)
    (p1 : ℚ × ℚ) (st : PipState) :
    specLoop x y v n (rem + 1) i p1 st
      = match specEdge x y p1 (v.getD (i % n) (0, 0)) st with
        | none => none
        | some st2 => specLoop x y v n rem (i + 1) (v.getD (i % n) (0, 0)) st2 := rfl

theorem pipGo_cons (x y : ℚ) (p1 p2 : ℚ × ℚ) (st : PipState)
    (ps : List (ℚ × ℚ)) :
    pipGo x y p1 st (p2 :: ps)
      = match pipEdge x y p1 p2 st with
        | none => none
        | some st2 => pipGo x y p2 st2 ps := rfl

theorem specLoop_eq_pipGo (x y : ℚ) (v0 : ℚ × ℚ) (rest : List (ℚ × ℚ)) :
    ∀ (tail : List (ℚ × ℚ)) (i : Nat) (p1 : ℚ × ℚ) (st : PipState),
      1 ≤ i →
      i + tail.length = (v0 :: rest).length →
      (v0 :: rest).drop i = tail →
      specLoop x y (v0 :: rest) (v0 :: rest).length (tail.length + 1) i p1 st
        = pipGo x y p1 st (tail ++ [v0]) := by
  intro tail
  induction tail with
  | nil =>
    intro i p1 st _ h2 _
    have hi : i = (v0 :: rest).length := by simpa using h2
    have hgetD : (v0 :: rest).getD (i % (v0 :: rest).length) (0, 0) = v0 := by
      rw [hi, Nat.mod_self]
      rfl
    rw [show ([] : List (ℚ × ℚ)).length + 1 = 0 + 1 from rfl, specLoop_succ,
      hgetD, specEdge_eq_pipEdge, List.nil_append, pipGo_cons]
    cases pipEdge x y p1 v0 st with
    | none => rfl
    | some st2 => rfl
  | cons t ts ih =>
    intro i p1 st h1 h2 h3
    have hlt : i < (v0 :: rest).length := by
      simp only [List.length_cons] at h2 ⊢
      omega
    have hdrop := List.drop_eq_getElem_cons hlt
    rw [h3] at hdrop
    have hget : (v0 :: rest)[i] = t :=
      ((List.cons.injEq _ _ _ _).mp hdrop.symm).1
    have hdrop2 : (v0 :: rest).drop (i + 1) = ts :=
      ((List.cons.injEq _ _ _ _).mp hdrop.symm).2
    have hgetD : (v0 :: rest).getD (i % (v0 :: rest).length) (0, 0) = t := by
      rw [Nat.mod_eq_of_lt hlt, List.getD_eq_getElem?_getD,
        List.getElem?_eq_getElem hlt, hget, Option.getD_some]
    rw [show (t :: ts).length + 1 = ts.length + 1 + 1 from rfl, specLoop_succ,
      hgetD, specEdge_eq_pipEdge, List.cons_append, pipGo_cons]
    cases pipEdge x y p1 t st with
    | none => rfl
    | some st2 =>
      exact ih (i + 1) t st2 (by omega)
        (by simp only [List.length_cons] at h2 ⊢; omega) hdrop2

/-- Claim C1: for every non-empty ring and query point, `point_in_polygon`
returns exactly the result of the spec's reference crossing-number
procedure `specCrossing` (same toggles, same `xinters` carry-over, and the
same undefined behaviour modelled by `Option`). -/
theorem point_in_polygon_matches_spec (coords : List (ℚ × ℚ)) (x y : ℚ)
    (h : coords ≠ []) : point_in_polygon x y coords = specCrossing x y coords := by
  match coords with
  | [] => exact absurd rfl h
  | v0 :: rest =>
    unfold point_in_polygon specCrossing
    have := specLoop_eq_pipGo x y v0 rest rest 1 v0 ⟨false, none⟩
      (le_refl 1) (by simp [Nat.add_comm]) (by simp)
    simp only [List.length_cons] at this ⊢
    rw [this]

/-- Witness for C1 at a concrete square ring and interior point. -/
theorem point_in_polygon_matches_spec_witness :
    point_in_polygon (1/2) (1/2) [((0 : ℚ), (0 : ℚ)), (1, 0), (1, 1), (0, 1)]
      = specCrossing (1/2) (1/2) [((0 : ℚ), (0 : ℚ)), (1, 0), (1, 1), (0, 1)] :=
  point_in_polygon_matches_spec _ _ _ (by simp)

/-! ## Totality of the ray caster

The `xinters`-undefined branch (`match xi with | none => none`) is only
reachable when the three outer guards fire on an edge with `p1y = p2y`; but
then `min p1y p2y = max p1y p2y`, so `y > min ∧ y ≤ max` is contradictory.
Hence the NameError branch is dead code for every input. -/

theorem pipEdge_isSome (x y : ℚ) (p1 p2 : ℚ × ℚ) (st : PipState) :
    (pipEdge x y p1 p2 st).isSome := by
  unfold pipEdge
  by_cases h1 : y > min p1.2 p2.2
  · by_cases h2 : y ≤ max p1.2 p2.2
    · by_cases h3 : x ≤ max p1.1 p2.1
      · have hne : p1.2 ≠ p2.2 := by
          intro heq
          rw [heq, min_self] at h1
          rw [heq, max_self] at h2
          exact absurd h2 (not_le.mpr h1)
        simp only [h1, h2, h3, hne, if_true, if_pos, ne_eq, not_false_iff]
        split_ifs <;> simp
      · simp [h1, h2, h3]
    · simp [h1, h2]
  · simp [h1]

theorem pipGo_isSome (x y : ℚ) :
    ∀ (ps : List (ℚ × ℚ)) (p1 : ℚ × ℚ) (st : PipState),
      (pipGo x y p1 st ps).isSome := by
  intro ps
  induction ps with
  | nil => intro p1 st; rfl
  | cons p2 rest ih =>
    intro p1 st
    rw [pipGo_cons]
    cases hE : pipEdge x y p1 p2 st with
    | none =>
      have := pipEdge_isSome x y p1 p2 st
      rw [hE] at this
      exact absurd this (by simp)
    | some st2 => exact ih p2 st2

theorem point_in_polygon_isSome (x y : ℚ) (coords : List (ℚ × ℚ))
    (h : coords ≠ []) : (point_in_polygon x y coords).isSome := by
  match coords with
  | [] => exact absurd rfl h
  | v0 :: rest =>
    unfold point_in_polygon
    have := pipGo_isSome x y (rest ++ [v0]) v0 ⟨false, none⟩
    cases hG : pipGo x y v0 ⟨false, none⟩ (rest ++ [v0]) with
    | none => rw [hG] at this; exact absurd this (by simp)
    | some st => simp [hG]

/-- Claim C10 counterexample: the claimed raising input does not exist —
there is no non-empty ring and point on which `point_in_polygon` raises;
in particular no ring with a leading horizontal edge does, because the
`y > min(p1y,p2y) ∧ y ≤ max(p1y,p2y)` guards can never fire on a
horizontal edge. -/
theorem point_in_polygon_no_raising_input :
    ¬ ∃ (coords : List (ℚ × ℚ)) (x y : ℚ),
        coords ≠ [] ∧ point_in_polygon x y coords = none := by
  rintro ⟨coords, x, y, hne, hnone⟩
  have := point_in_polygon_isSome x y coords hne
  rw [hnone] at this
  exact absurd this (by simp)

/-- Claim C10 (amended): `point_in_polygon` is total on every non-empty
ring, with no precondition about horizontal edges: the undefined-`xinters`
error branch is unreachable, and the function always returns a boolean. -/
theorem point_in_polygon_total (coords : List (ℚ × ℚ)) (x y : ℚ)
    (h : coords ≠ []) : ∃ b, point_in_polygon x y coords = some b := by
  have := point_in_polygon_isSome x y coords h
  cases hE : point_in_polygon x y coords with
  | none => rw [hE] at this; exact absurd this (by simp)
  | some b => exact ⟨b, rfl⟩

/-- Witness for C10 (amended) on a ring whose first traversed edge is
horizontal. -/
theorem point_in_polygon_total_witness :
    ∃ b, point_in_polygon (1/2) 0
      [((0 : ℚ), (0 : ℚ)), (1, 0), (1, 1), (0, 1)] = some b :=
  point_in_polygon_total _ _ _ (by simp)

/-! ## Degraded membership engine: `point_in_polygon_simple`
(geospatial_simple.py, lines 9-30; textually identical algorithm). -/

/-- One iteration of the loop body of `point_in_polygon_simple`. -/
def pipEdgeSimple (x y : ℚ) (p1 p2 : ℚ × ℚ) (st : PipState) : Option PipState :=
  let p1x := p1.1; let p1y := p1.2
  let p2x := p2.1; let p2y := p2.2
  if y > min p1y p2y then
    if y ≤ max p1y p2y then
      if x ≤ max p1x p2x then
        let xi : Option ℚ :=
          if p1y ≠ p2y then some ((y - p1y) * (p2x - p1x) / (p2y - p1y) + p1x)
          else st.xinters
        if p1x = p2x then some ⟨!st.inside, xi⟩
        else
          match xi with
          | none => none
          | some v =>
            if x ≤ v then some ⟨!st.inside, xi⟩ else some ⟨st.inside, xi⟩
      else some st
    else some st
  else some st

/-- The ray-casting loop of `point_in_polygon_simple`. -/
def pipGoSimple (x y : ℚ) : (ℚ × ℚ) → PipState → List (ℚ × ℚ) → Option PipState
  | _, st, [] => some st
  | p1, st, p2 :: ps =>
    match pipEdgeSimple x y p1 p2 st with
    | none => none
    | some st2 => pipGoSimple x y p2 st2 ps

/-- `point_in_polygon_simple` from geospatial_simple.py. -/
def point_in_polygon_simple (x y : ℚ) (polygon_coords : List (ℚ × ℚ)) :
    Option Bool :=
  match polygon_coords with
  | [] => none
  | v0 :: rest =>
    (pipGoSimple x y v0 ⟨false, none⟩ (rest ++ [v0])).map PipState.inside

theorem pipEdgeSimple_eq (x y : ℚ) (p1 p2 : ℚ × ℚ) (st : PipState) :
    pipEdgeSimple x y p1 p2 st = pipEdge x y p1 p2 st := rfl

theorem pipGoSimple_eq (x y : ℚ) :
    ∀ (ps : List (ℚ × ℚ)) (p1 : ℚ × ℚ) (st : PipState),
      pipGoSimple x y p1 st ps = pipGo x y p1 st ps := by
  intro ps
  induction ps with
  | nil => intro p1 st; rfl
  | cons p2 rest ih =>
    intro p1 st
    show (match pipEdgeSimple x y p1 p2 st with
          | none => none
          | some st2 => pipGoSimple x y p2 st2 rest)
        = pipGo x y p1 st (p2 :: rest)
    rw [pipGo_cons, pipEdgeSimple_eq]
    cases pipEdge x y p1 p2 st with
    | none => rfl
    | some st2 => exact ih p2 st2

/-- Claim C9: the Pure strategy's containment test (`point_in_polygon`) and
the Degraded strategy's containment test (`point_in_polygon_simple`) agree
on every ring and every query point — in particular on points strictly
interior or strictly exterior to a simple hole-free polygon. -/
theorem point_in_polygon_simple_agrees (x y : ℚ) (coords : List (ℚ × ℚ)) :
    point_in_polygon_simple x y coords = point_in_polygon x y coords := by
  match coords with
  | [] => rfl
  | v0 :: rest =>
    show (pipGoSimple x y v0 ⟨false, none⟩ (rest ++ [v0])).map PipState.inside
        = (pipGo x y v0 ⟨false, none⟩ (rest ++ [v0])).map PipState.inside
    rw [pipGoSimple_eq]

/-! ## Boundary store data model (geospatial_pure.py / geospatial_simple.py)

`Props` models the three keys that `_load_countries` consults in
`feature['properties']`; a key may be absent (`none`) or hold any string.
`GeometryType` models `feature['geometry']`, with `Other` standing for any
unsupported geometry type (skipped silently by the loaders). -/

structure Props where
  NAME : Option String
  ADMIN : Option String
  name : Option String
  deriving Repr, DecidableEq

inductive GeometryType where
  | Polygon (coordinates : List (List (ℚ × ℚ)))
  | MultiPolygon (coordinates : List (List (List (ℚ × ℚ))))
  | Other
  deriving Repr, DecidableEq

structure Feature where
  geometry : GeometryType
  properties : Props
  deriving Repr, DecidableEq

inductive RegionGeom where
  | polygon (coordinates : List (List (ℚ × ℚ)))
  | multipolygon (coordinates : List (List (List (ℚ × ℚ))))
  deriving Repr, DecidableEq

structure Region where
  name : String
  geom : RegionGeom
  deriving Repr, DecidableEq

/-- Python's `a or b` on an optional string `a` (absent key → `None`): the
left operand is kept when it is truthy (present and non-empty). -/
def pyOr (a : Option String) (b : String) : String :=
  match a with
  | none => b
  | some s => if s = "" then b else s

/-- The region-name expression of `_load_countries`:
`properties.get('NAME') or properties.get('ADMIN') or
properties.get('name', 'Unknown')`. -/
def country_name (properties : Props) : String :=
  pyOr properties.NAME (pyOr properties.ADMIN (properties.name.getD "Unknown"))

/-- `PureCountryFinder._load_countries`, after JSON decoding: iterate the
features, resolve a name for each, keep Polygon and MultiPolygon
geometries, skip everything else. -/
def PureCountryFinder_load_countries : List Feature → List Region
  | [] => []
  | f :: fs =>
    match f.geometry with
    | .Polygon coords =>
      ⟨country_name f.properties, .polygon coords⟩ :: PureCountryFinder_load_countries fs
    | .MultiPolygon coords =>
      ⟨country_name f.properties, .multipolygon coords⟩ :: PureCountryFinder_load_countries fs
    | .Other => PureCountryFinder_load_countries fs

/-! ## Pure strategy lookup (geospatial_pure.py, lines 82-95) -/

/-- The inner loop of `find_country`'s `'polygon'` branch: try the rings of
one ring-group in order; an exception in any test propagates. -/
def anyRing (x y : ℚ) : List (List (ℚ × ℚ)) → Option Bool
  | [] => some false
  | ring :: rest =>
    match point_in_polygon x y ring with
    | none => none
    | some true => some true
    | some false => anyRing x y rest

/-- `point_in_multipolygon` from geospatial_pure.py: nested loops over
ring-groups and rings, returning on the first containing ring. -/
def point_in_multipolygon (x y : ℚ) : List (List (List (ℚ × ℚ))) → Option Bool
  | [] => some false
  | group :: groups =>
    match anyRing x y group with
    | none => none
    | some true => some true
    | some false => point_in_multipolygon x y groups

/-- Containment test applied to one stored Region inside
`PureCountryFinder.find_country` (note the `(lon, lat)` argument order of
the source calls). -/
def regionContains (c : Region) (x y : ℚ) : Option Bool :=
  match c.geom with
  | .polygon coords => anyRing x y coords
  | .multipolygon coords => point_in_multipolygon x y coords

/-- `PureCountryFinder.find_country`: walk the stored regions in load
order, returning the name of the first region containing the point, else
`"Unknown"`. -/
def PureCountryFinder_find_country (countries : List Region) (lat lon : ℚ) :
    Option String :=
  match countries with
  | [] => some "Unknown"
  | c :: rest =>
    match regionContains c lon lat with
    | none => none
    | some true => some c.name
    | some false => PureCountryFinder_find_country rest lat lon

/-- Spec-side description of lookup (spec.md §3): the first matching Region
in source order wins, `"Unknown"` when none matches. -/
def firstMatchName (countries : List Region) (lat lon : ℚ) : String :=
  match countries.find? (fun c => regionContains c lon lat == some true) with
  | some c => c.name
  | none => "Unknown"

/-- Claim C5: region lookup proceeds strictly in load order and returns the
name of the first Region whose geometry contains the point (name
collisions are harmless), `"Unknown"` when no Region matches; stated under
the hypothesis that every individual containment test returns a boolean. -/
theorem find_country_first_match (countries : List Region) (lat lon : ℚ)
    (h : ∀ c ∈ countries, (regionContains c lon lat).isSome) :
    PureCountryFinder_find_country countries lat lon
      = some (firstMatchName countries lat lon) := by
  induction countries with
  | nil => rfl
  | cons c rest ih =>
    have hc := h c (List.mem_cons_self c rest)
    cases hcc : regionContains c lon lat with
    | none => rw [hcc] at hc; exact absurd hc (by simp)
    | some b =>
      cases b with
      | true =>
        show (match regionContains c lon lat with
              | none => none
              | some true => some c.name
              | some false => PureCountryFinder_find_country rest lat lon)
            = some (firstMatchName (c :: rest) lat lon)
        rw [hcc]
        unfold firstMatchName
        rw [List.find?_cons_of_pos _ (by simp [hcc])]
      | false =>
        show (match regionContains c lon lat with
              | none => none
              | some true => some c.name
              | some false => PureCountryFinder_find_country rest lat lon)
            = some (firstMatchName (c :: rest) lat lon)
        rw [hcc]
        have hrest : ∀ r ∈ rest, (regionContains r lon lat).isSome :=
          fun r hr => h r (List.mem_cons_of_mem c hr)
        rw [ih hrest]
        unfold firstMatchName
        rw [List.find?_cons_of_neg _ (by simp [hcc])]

/-- Witness for C5: two Regions both named "Disjoint" with non-overlapping
rings; the point lies only in the second Region's ring and still resolves
to "Disjoint". -/
theorem find_country_first_match_witness :
    PureCountryFinder_find_country
      [⟨"Disjoint", .polygon [[(2, 2), (3, 2), (3, 3), (2, 3)]]⟩,
       ⟨"Disjoint", .polygon [[(0, 0), (1, 0), (1, 1), (0, 1)]]⟩]
      (1/2) (1/2) = some "Disjoint" :=
  (find_country_first_match _ (1/2) (1/2)
      (by with_unfolding_all decide)).trans (by with_unfolding_all decide)

/-! ## Region-name precedence (claim C6) -/

/-- Claim C6 counterexample: a feature whose only name attribute is the
empty-string `name` key loads with region name `""`, not `"Unknown"` —
Python's `properties.get('name', 'Unknown')` returns the present empty
string, and it is the last operand of the `or` chain. -/
theorem country_name_empty_counterexample :
    country_name ⟨none, none, some ""⟩ = "" ∧
    country_name ⟨none, none, some ""⟩ ≠ "Unknown" :=
  ⟨rfl, by decide⟩

/-- Claim C6 (amended): the Region name follows the precedence
NAME > ADMIN > name > "Unknown", where an empty or missing NAME/ADMIN
falls through; a missing `name` key yields `"Unknown"`, but a present
`name` key is returned verbatim, so an empty-string `name` yields `""`
rather than `"Unknown"`. -/
theorem country_name_precedence (properties : Props) (s : String) :
    ((properties.NAME = some s ∧ s ≠ "") → country_name properties = s)
    ∧ ((properties.NAME = none ∨ properties.NAME = some "") →
        (properties.ADMIN = some s ∧ s ≠ "") → country_name properties = s)
    ∧ ((properties.NAME = none ∨ properties.NAME = some "") →
        (properties.ADMIN = none ∨ properties.ADMIN = some "") →
        properties.name = some s → country_name properties = s)
    ∧ ((properties.NAME = none ∨ properties.NAME = some "") →
        (properties.ADMIN = none ∨ properties.ADMIN = some "") →
        properties.name = none → country_name properties = "Unknown") := by
  refine ⟨?_, ?_, ?_, ?_⟩
  · rintro ⟨hn, hs⟩
    simp [country_name, pyOr, hn, hs]
  · rintro (hn | hn) ⟨ha, hs⟩ <;> simp [country_name, pyOr, hn, ha, hs]
  · rintro (hn | hn) (ha | ha) hname <;> simp [country_name, pyOr, hn, ha, hname]
  · rintro (hn | hn) (ha | ha) hname <;> simp [country_name, pyOr, hn, ha, hname]

/-- Witness for C6 (amended): a feature with all three keys present and
non-empty resolves to its NAME attribute. -/
theorem country_name_precedence_witness :
    country_name ⟨some "France", some "French Republic", some "france"⟩ = "France" :=
  (country_name_precedence ⟨some "France", some "French Republic", some "france"⟩
    "France").1 ⟨rfl, by decide⟩

/-! ## Degraded strategy (geospatial_simple.py)

`SimpleCountryFinder._load_countries` wraps the file read in
`try/except FileNotFoundError`, returning an empty region list when the
boundary file is missing; the parse loop is the same as the pure one.
The input `Option (List Feature)` is the outcome of the file read:
`none` = missing file. -/

def SimpleCountryFinder_parse : List Feature → List Region
  | [] => []
  | f :: fs =>
    match f.geometry with
    | .Polygon coords =>
      ⟨country_name f.properties, .polygon coords⟩ :: SimpleCountryFinder_parse fs
    | .MultiPolygon coords =>
      ⟨country_name f.properties, .multipolygon coords⟩ :: SimpleCountryFinder_parse fs
    | .Other => SimpleCountryFinder_parse fs

def SimpleCountryFinder_load_countries (file : Option (List Feature)) : List Region :=
  match file with
  | none => []
  | some feats => SimpleCountryFinder_parse feats

/-- The ring loop of `SimpleCountryFinder.find_country`'s `'polygon'`
branch. -/
def anyRingSimple (x y : ℚ) : List (List (ℚ × ℚ)) → Option Bool
  | [] => some false
  | ring :: rest =>
    match point_in_polygon_simple x y ring with
    | none => none
    | some true => some true
    | some false => anyRingSimple x y rest

/-- The nested group/ring loops of the `'multipolygon'` branch of
`SimpleCountryFinder.find_country`. -/
def anyGroupSimple (x y : ℚ) : List (List (List (ℚ × ℚ))) → Option Bool
  | [] => some false
  | group :: groups =>
    match anyRingSimple x y group with
    | none => none
    | some true => some true
    | some false => anyGroupSimple x y groups

def simpleRegionContains (c : Region) (x y : ℚ) : Option Bool :=
  match c.geom with
  | .polygon coords => anyRingSimple x y coords
  | .multipolygon coords => anyGroupSimple x y coords

/-- `SimpleCountryFinder.find_country`. -/
def SimpleCountryFinder_find_country (countries : List Region) (lat lon : ℚ) :
    Option String :=
  match countries with
  | [] => some "Unknown"
  | c :: rest =>
    match simpleRegionContains c lon lat with
    | none => none
    | some true => some c.name
    | some false => SimpleCountryFinder_find_country rest lat lon

/-- Claim C7: the degraded strategy treats a missing boundary file as
loading zero Regions, and lookup over zero Regions returns exactly
`"Unknown"` for every coordinate, without raising. -/
theorem simple_missing_file_unknown :
    SimpleCountryFinder_load_countries none = [] ∧
    ∀ (lat lon : ℚ),
      SimpleCountryFinder_find_country (SimpleCountryFinder_load_countries none)
        lat lon = some "Unknown" :=
  ⟨rfl, fun _ _ => rfl⟩

/-! ## Fallback shim (geospatial_fallback.py)

`find_country_for_point_pure` builds the pure finder lazily; the pure
loader has no `try/except`, so a missing boundary file raises
FileNotFoundError out of it (`none`).  `find_country_for_point` only wraps
the *Shapely* call in `try/except`; both calls of the pure strategy (as
fallback inside the handler and in the `elif PURE_AVAILABLE` branch) are
unguarded.  `shapelyResult` models the Shapely strategy call: `some s` =
returned `s`, `none` = raised. -/

def find_country_for_point_pure (file : Option (List Feature)) (lat lon : ℚ) :
    Option String :=
  match file with
  | none => none
  | some feats =>
    PureCountryFinder_find_country (PureCountryFinder_load_countries feats) lat lon

def find_country_for_point (SHAPELY_AVAILABLE PURE_AVAILABLE : Bool)
    (shapelyResult : Option String) (file : Option (List Feature))
    (lat lon : ℚ) : Option String :=
  if SHAPELY_AVAILABLE then
    match shapelyResult with
    | some s => some s
    | none =>
      if PURE_AVAILABLE then find_country_for_point_pure file lat lon
      else some "Unknown"
  else if PURE_AVAILABLE then find_country_for_point_pure file lat lon
  else some "Unknown"

/-- Claim C2 counterexample: with Shapely unavailable and the pure strategy
available but its boundary file missing, `find_country_for_point` raises
(FileNotFoundError propagates out of the unguarded pure loader) instead of
returning a string. -/
theorem find_country_for_point_raises :
    find_country_for_point false true (some "France") none 0 0 = none := rfl

/-- Claim C2 (amended): exceptions in the Shapely strategy are caught, but
an exception in the pure strategy propagates: the only way
`find_country_for_point` can raise is that the pure strategy is the one
consulted (pure available, and Shapely either unavailable or itself
failing) and the pure strategy raises; whenever the pure path does not
raise, a string is returned. -/
theorem find_country_for_point_exception_source
    (SHAPELY_AVAILABLE PURE_AVAILABLE : Bool) (shapelyResult : Option String)
    (file : Option (List Feature)) (lat lon : ℚ)
    (h : find_country_for_point SHAPELY_AVAILABLE PURE_AVAILABLE shapelyResult
          file lat lon = none) :
    PURE_AVAILABLE = true ∧ find_country_for_point_pure file lat lon = none ∧
      (SHAPELY_AVAILABLE = false ∨ shapelyResult = none) := by
  cases SHAPELY_AVAILABLE with
  | false =>
    cases PURE_AVAILABLE with
    | false => simp [find_country_for_point] at h
    | true =>
      simp only [find_country_for_point, Bool.false_eq_true, if_false, if_true] at h
      exact ⟨rfl, h, Or.inl rfl⟩
  | true =>
    cases shapelyResult with
    | some s => simp [find_country_for_point] at h
    | none =>
      cases PURE_AVAILABLE with
      | false => simp [find_country_for_point] at h
      | true =>
        simp only [find_country_for_point, if_true] at h
        exact ⟨rfl, h, Or.inr rfl⟩

/-- Witness for C2 (amended) at the concrete raising configuration. -/
theorem find_country_for_point_exception_source_witness :
    (true : Bool) = true ∧
    find_country_for_point_pure (none : Option (List Feature)) 0 0 = none ∧
    ((false : Bool) = false ∨ (some "France" : Option String) = none) :=
  find_country_for_point_exception_source false true (some "France") none 0 0 rfl

/-! ## Resolution cache key (country_detector.py, lines 38-40)

`_get_cache_key` is `f"{round(lat, 2)},{round(lon, 2)}"`.  Python's
`round` rounds to the nearest representable value, ties to even
(banker's rounding); we model it exactly over ℚ. -/

/-- Python's `round(q)` to an integer: nearest integer, ties to even. -/
def pyRoundInt (q : ℚ) : ℤ :=
  let f := ⌊q⌋
  let r := q - f
  if r < 1/2 then f
  else if 1/2 < r then f + 1
  else if f % 2 = 0 then f else f + 1

/-- Python's `round(q, 2)`. -/
def pyRound2 (q : ℚ) : ℚ := (pyRoundInt (q * 100) : ℚ) / 100

/-- `CountryDetector._get_cache_key`. -/
def CountryDetector_get_cache_key (lat lon : ℚ) : String :=
  toString (pyRound2 lat) ++ "," ++ toString (pyRound2 lon)

/-- Claim C8 counterexample: `1.234` and `1.236` agree in their first two
decimal places and differ only in the third, yet `round(·, 2)` sends them
to `1.23` and `1.24`, so they map to different cache keys. -/
theorem get_cache_key_counterexample :
    CountryDetector_get_cache_key (1234/1000) 5
      ≠ CountryDetector_get_cache_key (1236/1000) 5 ∧
    pyRound2 (1234/1000) = 123/100 ∧ pyRound2 (1236/1000) = 124/100 := by
  refine ⟨?_, ?_, ?_⟩ <;> with_unfolding_all decide

/-- Claim C8 (amended): two coordinate pairs whose latitudes and whose
longitudes round (2 decimal places, ties to even) to the same values map
to the same cache key string. -/
theorem get_cache_key_same_rounded (lat1 lon1 lat2 lon2 : ℚ)
    (hlat : pyRound2 lat1 = pyRound2 lat2)
    (hlon : pyRound2 lon1 = pyRound2 lon2) :
    CountryDetector_get_cache_key lat1 lon1
      = CountryDetector_get_cache_key lat2 lon2 := by
  unfold CountryDetector_get_cache_key
  rw [hlat, hlon]

/-- Witness for C8 (amended): `1.231` and `1.233` differ only beyond the
second decimal place, round to the same value, and share a cache key. -/
theorem get_cache_key_same_rounded_witness :
    CountryDetector_get_cache_key (1231/1000) 5
      = CountryDetector_get_cache_key (1233/1000) 5 :=
  get_cache_key_same_rounded (1231/1000) 5 (1233/1000) 5
    (by with_unfolding_all decide) rfl

/-! ## Resolution cache and orchestrator (country_detector.py, lines 42-57)

The JSON cache dict is modelled as an association list; assignment
prepends, lookup takes the most recent binding, matching dict
observational behaviour.  `remote` abstracts `_fetch_country_from_api`;
the returned Bool records whether the remote chain was invoked on that
call. -/

def cacheLookup : List (String × String) → String → Option String
  | [], _ => none
  | (k, v) :: rest, key => if k = key then some v else cacheLookup rest key

structure CountryDetector where
  cache : List (String × String)
  deriving Repr, DecidableEq

/-- `CountryDetector.get_country`: consult the cache under the rounded
key; on a miss, invoke the remote chain, store the result, and persist. -/
def CountryDetector_get_country (remote : ℚ → ℚ → String)
    (self : CountryDetector) (lat lon : ℚ) : String × CountryDetector × Bool :=
  let cache_key := CountryDetector_get_cache_key lat lon
  match cacheLookup self.cache cache_key with
  | some c => (c, self, false)
  | none =>
    let country := remote lat lon
    (country, ⟨(cache_key, country) :: self.cache⟩, true)

/-- Claim C4: calling `get_country` twice in succession with the same
coordinates returns the same country both times, and the second call is a
cache hit that does not invoke the remote chain. -/
theorem get_country_idempotent (remote : ℚ → ℚ → String)
    (self : CountryDetector) (lat lon : ℚ) :
    (CountryDetector_get_country remote
        (CountryDetector_get_country remote self lat lon).2.1 lat lon).1
      = (CountryDetector_get_country remote self lat lon).1
    ∧ (CountryDetector_get_country remote
        (CountryDetector_get_country remote self lat lon).2.1 lat lon).2.2
      = false := by
  unfold CountryDetector_get_country
  cases h : cacheLookup self.cache (CountryDetector_get_cache_key lat lon) with
  | some c => simp [h]
  | none => simp [h, cacheLookup]

/-! ## Remote resolver chain (country_detector.py, lines 59-77)

One provider call is an `Except Unit String`: `.error` = the call raised
(caught by the chain, which moves on), `.ok s` = it returned the string
`s`.  The individual provider functions map non-success statuses and
missing country fields to `"Unknown"` themselves, so those cases reach
the chain as `.ok "Unknown"`.  The chain accepts the first truthy,
non-`"Unknown"` value (`if country and country != "Unknown"`). -/

def providerGood : Except Unit String → Bool
  | .error _ => false
  | .ok c => decide (c ≠ "") && decide (c ≠ "Unknown")

def providerValue : Except Unit String → String
  | .error _ => ""
  | .ok c => c

/-- `CountryDetector._fetch_country_from_api` over the ordered provider
outcomes; the `Nat` counts how many providers were invoked (each at most
once, in order). -/
def fetch_country_from_api : List (Except Unit String) → String × Nat
  | [] => ("Unknown", 0)
  | p :: rest =>
    match p with
    | .error _ =>
      let r := fetch_country_from_api rest
      (r.1, r.2 + 1)
    | .ok country =>
      if country ≠ "" ∧ country ≠ "Unknown" then (country, 1)
      else
        let r := fetch_country_from_api rest
        (r.1, r.2 + 1)

/-- Claim C3: the remote resolver gives each provider exactly one attempt
in order: if every provider fails or returns empty/"Unknown", the result
is exactly "Unknown" after consulting all of them; and the first provider
with a non-empty, non-"Unknown" value determines the result, with no
later provider invoked (the invocation count is its index plus one). -/
theorem fetch_country_first_success (ps : List (Except Unit String)) :
    ((∀ p ∈ ps, providerGood p = false) →
      fetch_country_from_api ps = ("Unknown", ps.length))
    ∧ (∀ (i : Nat) (hi : i < ps.length),
        providerGood (ps.get ⟨i, hi⟩) = true →
        (∀ p ∈ ps.take i, providerGood p = false) →
        fetch_country_from_api ps = (providerValue (ps.get ⟨i, hi⟩), i + 1)) := by
  induction ps with
  | nil =>
    refine ⟨fun _ => rfl, ?_⟩
    intro i hi
    exact absurd hi (Nat.not_lt_zero i)
  | cons p rest ih =>
    constructor
    · intro h
      have hp := h p (List.mem_cons_self p rest)
      have hrest := ih.1 fun q hq => h q (List.mem_cons_of_mem p hq)
      cases p with
      | error e =>
        show ((fetch_country_from_api rest).1, (fetch_country_from_api rest).2 + 1)
            = ("Unknown", rest.length + 1)
        rw [hrest]
      | ok c =>
        have hcond : ¬(c ≠ "" ∧ c ≠ "Unknown") := by
          simp only [providerGood, Bool.and_eq_false_iff,
            decide_eq_false_iff_not, not_not] at hp
          tauto
        show (if c ≠ "" ∧ c ≠ "Unknown" then (c, 1)
              else ((fetch_country_from_api rest).1,
                    (fetch_country_from_api rest).2 + 1))
            = ("Unknown", rest.length + 1)
        rw [if_neg hcond, hrest]
    · intro i hi hgood hprev
      cases i with
      | zero =>
        cases p with
        | error e => exact absurd hgood (by simp [providerGood, List.get])
        | ok c =>
          have hcond : c ≠ "" ∧ c ≠ "Unknown" := by
            simp only [List.get, providerGood, Bool.and_eq_true,
              decide_eq_true_eq] at hgood
            exact hgood
          show (if c ≠ "" ∧ c ≠ "Unknown" then (c, 1)
                else ((fetch_country_from_api rest).1,
                      (fetch_country_from_api rest).2 + 1))
              = (providerValue ((Except.ok c :: rest).get ⟨0, hi⟩), 0 + 1)
          rw [if_pos hcond]
          rfl
      | succ k =>
        have hk : k < rest.length := by
          simpa [Nat.succ_lt_succ_iff] using hi
        have h0 : providerGood p = false :=
          hprev p (by simp [List.take_succ_cons])
        have hprevrest : ∀ q ∈ rest.take k, providerGood q = false :=
          fun q hq => hprev q (by simp [List.take_succ_cons, hq])
        have hgoodrest : providerGood (rest.get ⟨k, hk⟩) = true := hgood
        have hrec := ih.2 k hk hgoodrest hprevrest
        cases p with
        | error e =>
          show ((fetch_country_from_api rest).1,
                (fetch_country_from_api rest).2 + 1)
              = (providerValue ((Except.error e :: rest).get ⟨k + 1, hi⟩), k + 1 + 1)
          rw [hrec]
          rfl
        | ok c =>
          have hcond : ¬(c ≠ "" ∧ c ≠ "Unknown") := by
            simp only [providerGood, Bool.and_eq_false_iff,
              decide_eq_false_iff_not, not_not] at h0
            tauto
          show (if c ≠ "" ∧ c ≠ "Unknown" then (c, 1)
                else ((fetch_country_from_api rest).1,
                      (fetch_country_from_api rest).2 + 1))
              = (providerValue ((Except.ok c :: rest).get ⟨k + 1, hi⟩), k + 1 + 1)
          rw [if_neg hcond, hrec]
          rfl

/-- Witness for C3: providers raising, empty, and "Unknown" are skipped;
the first good provider (index 3) supplies the result and exactly four
providers are invoked. -/
theorem fetch_country_first_success_witness :
    fetch_country_from_api
      [Except.error (), Except.ok "", Except.ok "Unknown",
       Except.ok "France", Except.ok "Spain"] = ("France", 4) :=
  ((fetch_country_first_success
      [Except.error (), Except.ok "", Except.ok "Unknown",
       Except.ok "France", Except.ok "Spain"]).2 3 (by decide)
    (by decide) (by decide)).trans rfl

end Windborne

namespace Check

example : Windborne.point_in_polygon (1/2) (1/2)
    [(0, 0), (1, 0), (1, 1), (0, 1)] = some true := by with_unfolding_all decide

example : Windborne.point_in_polygon 5 5
    [(0, 0), (1, 0), (1, 1), (0, 1)] = some false := by with_unfolding_all decide

example : Windborne.point_in_polygon (1/2) 0
    [(0, 0), (1, 0), (1, 1), (0, 1)] = some false := by with_unfolding_all decide

end Check
